import Mathlib

/-!
Shallow embedding of the resilient caching / prefetch layer of BrewDeck
(src-tauri/src/error.rs, services/cache_manager.rs, services/package_service.rs,
services/prefetch_service.rs), together with theorems settling the claims of
the natural-language specification against this embedding.

Modelling conventions:
* timestamps and durations are natural numbers of milliseconds;
* asynchronous fallible operations become `Except`-valued data: an operation
  that is invoked repeatedly is a function from the attempt index to its
  result, an operation invoked at most once is just its result, and a boolean
  in the output records whether it was invoked;
* the `DashMap` storage of the cache becomes an association list
  `List (String × CacheEntry J)`; `serde_json` serialization to `Value`
  becomes an `Except String J` input (the already-attempted serialization)
  and deserialization a `decode : J → Option V` parameter;
* `f64` fields (`popularity`, `rating`, `downlink`, hit rates) carry no
  control-flow in the modelled operations and are omitted from the records;
* Rust's stable `sort_by` is modelled by `List.insertionSort` (also stable);
  Rust's byte-wise `String` order is modelled by the character-wise
  lexicographic order `str_le` below.
-/

/-! ## error.rs: error taxonomy and the resilience executor -/

inductive BrewDeckError where
  | HomebrewNotFound (msg : String)
  | PackageNotFound (msg : String)
  | InstallationFailed (msg : String)
  | UninstallationFailed (msg : String)
  | UpdateFailed (msg : String)
  | NetworkError (msg : String)
  | CacheError (msg : String)
  | PermissionDenied (msg : String)
  | CommandExecutionFailed (msg : String)
  | ParsingError (msg : String)
  | IoError (msg : String)
  | SerializationError (msg : String)
  | TimeoutError (msg : String)
  | RateLimitExceeded (msg : String)
  | InvalidConfiguration (msg : String)
  | InternalError (msg : String)
deriving DecidableEq, Repr

/-- The `Display` rendering generated by `thiserror` for `BrewDeckError`
(`e.to_string()` in the source). -/
def BrewDeckError.toMessage : BrewDeckError → String
  | .HomebrewNotFound msg => "Homebrew not found: " ++ msg
  | .PackageNotFound msg => "Package not found: " ++ msg
  | .InstallationFailed msg => "Installation failed: " ++ msg
  | .UninstallationFailed msg => "Uninstallation failed: " ++ msg
  | .UpdateFailed msg => "Update failed: " ++ msg
  | .NetworkError msg => "Network error: " ++ msg
  | .CacheError msg => "Cache error: " ++ msg
  | .PermissionDenied msg => "Permission denied: " ++ msg
  | .CommandExecutionFailed msg => "Command execution failed: " ++ msg
  | .ParsingError msg => "Parsing error: " ++ msg
  | .IoError msg => "IO error: " ++ msg
  | .SerializationError msg => "Serialization error: " ++ msg
  | .TimeoutError msg => "Timeout error: " ++ msg
  | .RateLimitExceeded msg => "Rate limit exceeded: " ++ msg
  | .InvalidConfiguration msg => "Invalid configuration: " ++ msg
  | .InternalError msg => "Internal error: " ++ msg

/-- `ErrorRecovery` (error.rs): the retry/backoff policy record. -/
structure ErrorRecovery where
  can_retry : Bool
  retry_count : Nat
  max_retries : Nat
  backoff_ms : Nat
  fallback_available : Bool
deriving DecidableEq, Repr

/-- `ErrorRecovery::new()`. -/
def ErrorRecovery.new : ErrorRecovery :=
  { can_retry := true
    retry_count := 0
    max_retries := 3
    backoff_ms := 1000
    fallback_available := false }

/-- `ErrorRecovery::should_retry`: `can_retry && retry_count < max_retries`. -/
def ErrorRecovery.should_retry (r : ErrorRecovery) : Bool :=
  r.can_retry && decide (r.retry_count < r.max_retries)

/-- `ErrorRecovery::increment_retry`. -/
def ErrorRecovery.increment_retry (r : ErrorRecovery) : ErrorRecovery :=
  { r with retry_count := r.retry_count + 1 }

/-- `ErrorRecovery::get_backoff_duration`:
`min(backoff_ms * 2^retry_count, 30000)` milliseconds. -/
def ErrorRecovery.get_backoff_duration (r : ErrorRecovery) : Nat :=
  min (r.backoff_ms * 2 ^ r.retry_count) 30000

/-- `retry_with_backoff` (error.rs): the operation is modelled as a function
from the attempt index to that attempt's outcome.  The result records, in
order, the list of sleeps performed between attempts (in ms), the total number
of attempts made (the next attempt index), and the final outcome.  Each loop
iteration computes the backoff from the *current* `retry_count` and only then
increments it, exactly as in the source. -/
def retry_with_backoff {E T : Type} (operation : Nat → Except E T)
    (recovery : ErrorRecovery) (attempt : Nat) : List Nat × Nat × Except E T :=
  match operation attempt with
  | Except.ok v => ([], attempt + 1, Except.ok v)
  | Except.error e =>
    if h : recovery.should_retry then
      let backoff := recovery.get_backoff_duration
      let rest := retry_with_backoff operation recovery.increment_retry (attempt + 1)
      (backoff :: rest.1, rest.2.1, rest.2.2)
    else
      ([], attempt + 1, Except.error e)
termination_by recovery.max_retries - recovery.retry_count
decreasing_by
  simp [ErrorRecovery.should_retry] at h
  simp [ErrorRecovery.increment_retry]
  omega

/-- `with_fallback` (error.rs): the two operations are modelled by their
outcomes; the boolean in the result records whether the fallback was invoked
(the source only calls `fallback()` in the error branch of `primary()`). -/
def with_fallback {E T : Type} (primary fallback : Except E T) : Except E T × Bool :=
  match primary with
  | Except.ok v => (Except.ok v, false)
  | Except.error primary_error =>
    match fallback with
    | Except.ok v => (Except.ok v, true)
    | Except.error _ => (Except.error primary_error, true)

/-! ## Claims C1 and C2 -/

/-- C1: for every always-failing operation, `retry_with_backoff` under the
default policy (`can_retry = true`, `max_retries = 3`, `base backoff 1000ms`)
makes exactly 4 attempts (1 initial + 3 retries), sleeps 1000ms, 2000ms and
4000ms between consecutive attempts, and returns the error of the last
attempt unmodified; moreover each sleep is
`min(backoff_ms * 2^retry_count, 30000)` computed before `retry_count` is
incremented for that attempt. -/
theorem retry_with_backoff_always_fails_four_attempts {E T : Type} (errs : Nat → E) :
    retry_with_backoff (T := T) (fun i => Except.error (errs i)) ErrorRecovery.new 0 =
      ([1000, 2000, 4000], 4, Except.error (errs 3)) ∧
    ∀ r : ErrorRecovery, r.get_backoff_duration = min (r.backoff_ms * 2 ^ r.retry_count) 30000 := by
  constructor
  · rw [retry_with_backoff, retry_with_backoff, retry_with_backoff, retry_with_backoff,
      retry_with_backoff]
    simp [ErrorRecovery.new, ErrorRecovery.should_retry, ErrorRecovery.increment_retry,
      ErrorRecovery.get_backoff_duration]
  · intro r
    rfl

/-- C2: `with_fallback` returns the primary's value when the primary succeeds
(and the fallback is not invoked); when the primary fails and the fallback
succeeds it returns the fallback's value; when both fail it returns the
original primary error, not the fallback's. -/
theorem with_fallback_spec (E T : Type) :
    (∀ (v : T) (fb : Except E T), with_fallback (Except.ok v) fb = (Except.ok v, false)) ∧
    (∀ (pe : E) (fv : T),
      with_fallback (Except.error pe) (Except.ok fv) = (Except.ok fv, true)) ∧
    (∀ pe fe : E,
      with_fallback (E := E) (T := T) (Except.error pe) (Except.error fe) =
        (Except.error pe, true)) :=
  ⟨fun _ _ => rfl, fun _ _ => rfl, fun _ _ => rfl⟩

/-! ## cache_manager.rs: TTL cache with tagging and eviction -/

/-- `CacheEntry<T>` (cache_manager.rs); timestamps in ms. -/
structure CacheEntry (J : Type) where
  data : J
  created_at : Nat
  ttl : Nat
  access_count : Nat
  last_accessed : Nat
  tags : List String
deriving DecidableEq, Repr

/-- `CacheEntry::new` at wall-clock time `now`: both timestamps are `now`,
`access_count` starts at 0, no tags. -/
def CacheEntry.new {J : Type} (data : J) (ttl : Nat) (now : Nat) : CacheEntry J :=
  { data := data, created_at := now, ttl := ttl, access_count := 0,
    last_accessed := now, tags := [] }

/-- `CacheEntry::with_tags`. -/
def CacheEntry.with_tags {J : Type} (e : CacheEntry J) (tags : List String) : CacheEntry J :=
  { e with tags := tags }

/-- `CacheEntry::is_expired` at time `now`: `now > created_at + ttl`. -/
def CacheEntry.is_expired {J : Type} (e : CacheEntry J) (now : Nat) : Bool :=
  decide (now > e.created_at + e.ttl)

/-- `CacheEntry::access` at time `now`: bumps `access_count`, refreshes
`last_accessed`. -/
def CacheEntry.access {J : Type} (e : CacheEntry J) (now : Nat) : CacheEntry J :=
  { e with access_count := e.access_count + 1, last_accessed := now }

/-- `EvictionStrategy` (cache_manager.rs). -/
inductive EvictionStrategy where
  | LeastRecentlyUsed
  | LeastFrequentlyUsed
  | FirstInFirstOut
  | TimeToLive
deriving DecidableEq, Repr

/-- `CacheConfig` (cache_manager.rs); durations in ms. -/
structure CacheConfig where
  default_ttl : Nat
  max_entries : Nat
  cleanup_interval : Nat
  strategy : EvictionStrategy
  persistence_enabled : Bool
  persistence_path : Option String
deriving Repr

/-- `CacheConfig::default()`: 5-minute default TTL, 1000 entries, 1-minute
cleanup interval, LRU strategy. -/
def CacheConfig.default : CacheConfig :=
  { default_ttl := 300000, max_entries := 1000, cleanup_interval := 60000,
    strategy := EvictionStrategy.LeastRecentlyUsed,
    persistence_enabled := true, persistence_path := none }

/-- The `DashMap<String, CacheEntry<Value>>` storage, as an association list. -/
abbrev Storage (J : Type) := List (String × CacheEntry J)

/-- `storage.get(key)` / `get_mut(key)`: the first entry with that key. -/
def lookupEntry {J : Type} (storage : Storage J) (key : String) : Option (CacheEntry J) :=
  (storage.find? (fun p => p.1 == key)).map Prod.snd

/-- `storage.remove(key)`. -/
def removeKey {J : Type} (storage : Storage J) (key : String) : Storage J :=
  storage.filter (fun p => !(p.1 == key))

/-- In-place mutation of the entry under `key` (the effect of `get_mut`). -/
def updateKey {J : Type} (storage : Storage J) (key : String) (e : CacheEntry J) : Storage J :=
  storage.map (fun p => if p.1 == key then (p.1, e) else p)

/-- `storage.insert(key, entry)`: overwrites any existing entry for `key`. -/
def insertEntry {J : Type} (storage : Storage J) (key : String) (e : CacheEntry J) : Storage J :=
  (key, e) :: removeKey storage key

/-- `CacheManager::get` at time `now`.  `decode` is the
`serde_json::from_value` step.  Returns the read result together with the
storage after the read (expired entries and undecodable entries are removed;
a hit mutates the entry via `access` before decoding). -/
def cache_get {V J : Type} (decode : J → Option V) (storage : Storage J)
    (key : String) (now : Nat) : Option V × Storage J :=
  match lookupEntry storage key with
  | none => (none, storage)
  | some entry =>
    if entry.is_expired now then
      (none, removeKey storage key)
    else
      let entry' := entry.access now
      match decode entry'.data with
      | some v => (some v, updateKey storage key entry')
      | none => (none, removeKey storage key)

/-- `CacheManager::get_lru_entries(count)`: keys of the `count` entries with
the smallest `last_accessed` (stable sort ascending, then take). -/
def get_lru_entries {J : Type} (storage : Storage J) (count : Nat) : List String :=
  (((storage.map (fun p => (p.1, p.2.last_accessed))).insertionSort
      (fun a b => a.2 ≤ b.2)).take count).map Prod.fst

/-- `CacheManager::get_lfu_entries(count)`. -/
def get_lfu_entries {J : Type} (storage : Storage J) (count : Nat) : List String :=
  (((storage.map (fun p => (p.1, p.2.access_count))).insertionSort
      (fun a b => a.2 ≤ b.2)).take count).map Prod.fst

/-- `CacheManager::get_fifo_entries(count)`. -/
def get_fifo_entries {J : Type} (storage : Storage J) (count : Nat) : List String :=
  (((storage.map (fun p => (p.1, p.2.created_at))).insertionSort
      (fun a b => a.2 ≤ b.2)).take count).map Prod.fst

/-- `CacheManager::get_expired_entries` at time `now`. -/
def get_expired_entries {J : Type} (storage : Storage J) (now : Nat) : List String :=
  (storage.filter (fun p => p.2.is_expired now)).map Prod.fst

/-- `CacheManager::evict_entries`: selects victims by the configured strategy
(batch size `max_entries / 10` for LRU/LFU/FIFO, all expired entries for
TTL-first) and removes them. -/
def evict_entries {J : Type} (cfg : CacheConfig) (storage : Storage J) (now : Nat) : Storage J :=
  let entries_to_remove :=
    match cfg.strategy with
    | EvictionStrategy.LeastRecentlyUsed => get_lru_entries storage (cfg.max_entries / 10)
    | EvictionStrategy.LeastFrequentlyUsed => get_lfu_entries storage (cfg.max_entries / 10)
    | EvictionStrategy.FirstInFirstOut => get_fifo_entries storage (cfg.max_entries / 10)
    | EvictionStrategy.TimeToLive => get_expired_entries storage now
  storage.filter (fun p => decide (p.1 ∉ entries_to_remove))

/-- `CacheManager::set_with_tags` at time `now`.  `serialized` is the outcome
of `serde_json::to_value(value)`; its error message becomes a
`SerializationError`.  When the store is at or over capacity an eviction pass
runs before the insert; capacity itself never produces an error. -/
def cache_set_with_tags {J : Type} (cfg : CacheConfig) (storage : Storage J)
    (key : String) (serialized : Except String J) (ttl : Option Nat)
    (tags : List String) (now : Nat) : Except BrewDeckError (Storage J) :=
  let t := ttl.getD cfg.default_ttl
  match serialized with
  | Except.error msg => Except.error (BrewDeckError.SerializationError msg)
  | Except.ok v =>
    let entry := (CacheEntry.new v t now).with_tags tags
    let storage1 :=
      if storage.length ≥ cfg.max_entries then evict_entries cfg storage now else storage
    Except.ok (insertEntry storage1 key entry)

/-- `CacheManager::set`: as `set_with_tags` with an empty tag list
(`CacheEntry::new` leaves `tags` empty). -/
def cache_set {J : Type} (cfg : CacheConfig) (storage : Storage J) (key : String)
    (serialized : Except String J) (ttl : Option Nat) (now : Nat) :
    Except BrewDeckError (Storage J) :=
  cache_set_with_tags cfg storage key serialized ttl [] now

/-- `CacheManager::invalidate(key)`: whether the key existed, and the storage
after removal. -/
def cache_invalidate {J : Type} (storage : Storage J) (key : String) : Bool × Storage J :=
  ((lookupEntry storage key).isSome, removeKey storage key)

/-- Rust `key.contains(pattern)`: substring test, character-wise. -/
def str_contains (key pattern : String) : Bool :=
  decide (pattern.toList <:+: key.toList)

/-- Rust `pattern.split('*')` on the character list. -/
def split_on_star : List Char → List (List Char)
  | [] => [[]]
  | a :: rest =>
    let r := split_on_star rest
    if a == '*' then [] :: r
    else
      match r with
      | [] => [[a]]
      | h :: t => (a :: h) :: t

/-- `glob_match` (cache_manager.rs): empty pattern matches only empty text;
`"*"` matches everything; a pattern with a `'*'` splitting it into exactly two
parts matches prefix and suffix; every other case is literal equality. -/
def glob_match (pattern text : String) : Bool :=
  let p := pattern.toList
  let t := text.toList
  if p.isEmpty then t.isEmpty
  else if p == ['*'] then true
  else if p.contains '*' then
    match split_on_star p with
    | [pre, suf] => pre.isPrefixOf t && suf.isSuffixOf t
    | _ => p == t
  else p == t

/-- The key filter of `CacheManager::invalidate_pattern`:
`key.contains(pattern) || key.starts_with(pattern) || glob_match(pattern, key)`. -/
def key_matches_pattern (pattern key : String) : Bool :=
  str_contains key pattern || pattern.toList.isPrefixOf key.toList || glob_match pattern key

/-- `CacheManager::invalidate_pattern`: collects the matching keys, removes
them all, and returns how many were collected. -/
def cache_invalidate_pattern {J : Type} (storage : Storage J) (pattern : String) :
    Nat × Storage J :=
  let keys_to_remove :=
    (storage.filter (fun p => key_matches_pattern pattern p.1)).map Prod.fst
  (keys_to_remove.length, storage.filter (fun p => decide (p.1 ∉ keys_to_remove)))

/-! ## Claim C3 -/

/-- C3: for a stored, never-invalidated entry, once `now > created_at + ttl`
the read returns "absent" and removes the entry from the store (lazy expiry,
no sweep needed); while unexpired, the read returns the entry's value. -/
theorem cache_get_lazy_expiry {V J : Type} (decode : J → Option V) (storage : Storage J)
    (key : String) (now : Nat) (entry : CacheEntry J)
    (hfound : lookupEntry storage key = some entry) :
    (now > entry.created_at + entry.ttl →
      cache_get decode storage key now = (none, removeKey storage key)) ∧
    (¬ (now > entry.created_at + entry.ttl) → ∀ v, decode entry.data = some v →
      cache_get decode storage key now = (some v, updateKey storage key (entry.access now))) := by
  constructor
  · intro hexp
    unfold cache_get
    rw [hfound]
    simp [CacheEntry.is_expired, hexp]
  · intro hfresh v hdec
    have hexp : entry.is_expired now = false := by
      simp [CacheEntry.is_expired]
      omega
    have hdata : (entry.access now).data = entry.data := rfl
    simp [cache_get, hfound, hexp, hdata, hdec]

/-- Witness for C3 at a concrete store: the entry `("k", 7)` created at time 0
with TTL 10 is absent (and removed) at time 11, and read back at time 10. -/
theorem cache_get_lazy_expiry_witness :
    (lookupEntry [("k", CacheEntry.new (J := Nat) 7 10 0)] "k" = some (CacheEntry.new 7 10 0)) ∧
    (cache_get some [("k", CacheEntry.new (J := Nat) 7 10 0)] "k" 11 = (none, [])) ∧
    (cache_get some [("k", CacheEntry.new (J := Nat) 7 10 0)] "k" 10 =
      (some 7, [("k", (CacheEntry.new (J := Nat) 7 10 0).access 10)])) := by
  have h := cache_get_lazy_expiry (V := Nat) (J := Nat) some
    [("k", CacheEntry.new 7 10 0)] "k" 11 (CacheEntry.new 7 10 0) (by decide)
  have h10 := cache_get_lazy_expiry (V := Nat) (J := Nat) some
    [("k", CacheEntry.new 7 10 0)] "k" 10 (CacheEntry.new 7 10 0) (by decide)
  refine ⟨by decide, ?_, ?_⟩
  · have := h.1 (by decide)
    simpa [removeKey, CacheEntry.new] using this
  · have := h10.2 (by decide) 7 (by decide)
    simpa [updateKey, CacheEntry.new] using this

/-! ## prefetch_service.rs: configuration, network gating -/

/-- `PrefetchConfig` (prefetch_service.rs). -/
structure PrefetchConfig where
  enabled : Bool
  max_concurrent_requests : Nat
  wifi_only : Bool
  respect_save_data : Bool
  popularity_threshold : Nat
  cache_warming_enabled : Bool
  predictive_enabled : Bool
  background_refresh_enabled : Bool
  prefetch_interval_seconds : Nat
deriving DecidableEq, Repr

/-- `PrefetchConfig::default()`. -/
def PrefetchConfig.default : PrefetchConfig :=
  { enabled := true, max_concurrent_requests := 3, wifi_only := false,
    respect_save_data := true, popularity_threshold := 1000,
    cache_warming_enabled := true, predictive_enabled := true,
    background_refresh_enabled := true, prefetch_interval_seconds := 300 }

/-- `NetworkConditions` (prefetch_service.rs); the `f64` field `downlink`
carries no control-flow and is omitted. -/
structure NetworkConditions where
  connection_type : String
  effective_type : String
  rtt : Nat
  save_data : Bool
deriving DecidableEq, Repr

/-- `PrefetchPriority` (prefetch_service.rs). -/
inductive PrefetchPriority where
  | High
  | Medium
  | Low
deriving DecidableEq, Repr

/-- `PrefetchService::new` stores `None` for the network-conditions snapshot:
no snapshot exists until `update_network_conditions` is first called. -/
def initial_network_conditions : Option NetworkConditions := none

/-- `PrefetchService::should_allow_prefetch`: `network` is the stored
snapshot, `available_permits` the semaphore's currently available permits.
The Rust `match` on `effective_type` with arms `"slow-2g" | "2g"`, `"3g"`, `_`
is rendered as the equivalent sequence of string-equality tests. -/
def should_allow_prefetch (config : PrefetchConfig) (network : Option NetworkConditions)
    (available_permits : Nat) (priority : PrefetchPriority) : Bool :=
  if !config.enabled then false
  else
    match network with
    | none => decide (available_permits > 0)
    | some n =>
      if config.respect_save_data && n.save_data then false
      else if config.wifi_only && (n.connection_type == "cellular") then false
      else if n.effective_type == "slow-2g" || n.effective_type == "2g" then false
      else if n.effective_type == "3g" then
        match priority with
        | PrefetchPriority.High => decide (available_permits > 0)
        | _ => false
      else decide (available_permits > 0)

/-! ## Claims C6 and C10 -/

/-- C6: `should_allow_prefetch` denies every priority when prefetch is
disabled, when save-data is respected and active, when wifi-only is set on a
cellular connection, when the effective type is "slow-2g" or "2g", and when no
semaphore permit is available; on "3g" only `High` priority can be allowed
(Medium and Low are denied under identical conditions, and High is allowed
exactly when a permit is available); on any better tier the network-quality
check passes for every priority, leaving only the permit check. -/
theorem should_allow_prefetch_gates :
    (∀ (config : PrefetchConfig) (network : Option NetworkConditions)
        (permits : Nat) (priority : PrefetchPriority),
      config.enabled = false → should_allow_prefetch config network permits priority = false) ∧
    (∀ (config : PrefetchConfig) (n : NetworkConditions) (permits : Nat)
        (priority : PrefetchPriority),
      config.respect_save_data = true → n.save_data = true →
      should_allow_prefetch config (some n) permits priority = false) ∧
    (∀ (config : PrefetchConfig) (n : NetworkConditions) (permits : Nat)
        (priority : PrefetchPriority),
      config.wifi_only = true → n.connection_type = "cellular" →
      should_allow_prefetch config (some n) permits priority = false) ∧
    (∀ (config : PrefetchConfig) (n : NetworkConditions) (permits : Nat)
        (priority : PrefetchPriority),
      (n.effective_type = "slow-2g" ∨ n.effective_type = "2g") →
      should_allow_prefetch config (some n) permits priority = false) ∧
    (∀ (config : PrefetchConfig) (network : Option NetworkConditions)
        (priority : PrefetchPriority),
      should_allow_prefetch config network 0 priority = false) ∧
    (∀ (config : PrefetchConfig) (n : NetworkConditions) (permits : Nat),
      n.effective_type = "3g" →
      (should_allow_prefetch config (some n) permits PrefetchPriority.Medium = false ∧
       should_allow_prefetch config (some n) permits PrefetchPriority.Low = false ∧
       (∀ priority, should_allow_prefetch config (some n) permits priority = true →
          priority = PrefetchPriority.High) ∧
       (config.enabled = true → ¬ (config.respect_save_data = true ∧ n.save_data = true) →
        ¬ (config.wifi_only = true ∧ n.connection_type = "cellular") →
        should_allow_prefetch config (some n) permits PrefetchPriority.High =
          decide (permits > 0)))) ∧
    (∀ (config : PrefetchConfig) (n : NetworkConditions) (permits : Nat)
        (priority : PrefetchPriority),
      config.enabled = true → ¬ (config.respect_save_data = true ∧ n.save_data = true) →
      ¬ (config.wifi_only = true ∧ n.connection_type = "cellular") →
      n.effective_type ≠ "slow-2g" → n.effective_type ≠ "2g" → n.effective_type ≠ "3g" →
      should_allow_prefetch config (some n) permits priority = decide (permits > 0)) := by
  refine ⟨?_, ?_, ?_, ?_, ?_, ?_, ?_⟩
  · intro config network permits priority hdis
    simp [should_allow_prefetch, hdis]
  · intro config n permits priority hrs hsd
    simp only [should_allow_prefetch, hrs, hsd]
    split
    · rfl
    · simp
  · intro config n permits priority hwifi hcell
    simp only [should_allow_prefetch, hwifi, hcell]
    split
    · rfl
    · simp
  · intro config n permits priority heff
    simp only [should_allow_prefetch]
    split
    · rfl
    · rcases heff with h | h <;> simp [h]
  · intro config network priority
    simp only [should_allow_prefetch]
    split
    · rfl
    · cases network with
      | none => simp
      | some n =>
        simp only []
        split
        · rfl
        · split
          · rfl
          · split
            · rfl
            · split
              · cases priority <;> simp
              · simp
  · intro config n permits h3g
    refine ⟨?_, ?_, ?_, ?_⟩
    · simp only [should_allow_prefetch, h3g]
      split
      · rfl
      · split
        · rfl
        · split
          · rfl
          · simp
    · simp only [should_allow_prefetch, h3g]
      split
      · rfl
      · split
        · rfl
        · split
          · rfl
          · simp
    · intro priority htrue
      cases priority with
      | High => rfl
      | Medium =>
        exfalso
        revert htrue
        simp only [should_allow_prefetch, h3g]
        split
        · simp
        · split
          · simp
          · split
            · simp
            · simp
      | Low =>
        exfalso
        revert htrue
        simp only [should_allow_prefetch, h3g]
        split
        · simp
        · split
          · simp
          · split
            · simp
            · simp
    · intro hen hns hnw
      have h1 : (config.respect_save_data && n.save_data) = false := by
        cases hr : config.respect_save_data <;> cases hsv : n.save_data <;> simp_all
      have h2 : (config.wifi_only && (n.connection_type == "cellular")) = false := by
        cases hw : config.wifi_only <;> by_cases hc : n.connection_type = "cellular" <;>
          simp_all
      simp [should_allow_prefetch, hen, h1, h2, h3g]
  · intro config n permits priority hen hns hnw hs hm h3
    have h1 : (config.respect_save_data && n.save_data) = false := by
      cases hr : config.respect_save_data <;> cases hsv : n.save_data <;> simp_all
    have h2 : (config.wifi_only && (n.connection_type == "cellular")) = false := by
      cases hw : config.wifi_only <;> by_cases hc : n.connection_type = "cellular" <;>
        simp_all
    simp [should_allow_prefetch, hen, h1, h2, hs, hm, h3]

/-- Witness for C6: with default configuration, one available permit, and a
"3g" snapshot without save-data on wifi, High priority is allowed while
Medium and Low are denied; with zero permits everything is denied. -/
theorem should_allow_prefetch_gates_witness :
    should_allow_prefetch PrefetchConfig.default
      (some { connection_type := "wifi", effective_type := "3g", rtt := 100,
              save_data := false }) 1 PrefetchPriority.High = true ∧
    should_allow_prefetch PrefetchConfig.default
      (some { connection_type := "wifi", effective_type := "3g", rtt := 100,
              save_data := false }) 1 PrefetchPriority.Medium = false ∧
    should_allow_prefetch PrefetchConfig.default
      (some { connection_type := "wifi", effective_type := "3g", rtt := 100,
              save_data := false }) 1 PrefetchPriority.Low = false ∧
    should_allow_prefetch PrefetchConfig.default
      (some { connection_type := "wifi", effective_type := "3g", rtt := 100,
              save_data := false }) 0 PrefetchPriority.High = false := by
  have h := should_allow_prefetch_gates
  have hhigh := (h.2.2.2.2.2.1 PrefetchConfig.default
    { connection_type := "wifi", effective_type := "3g", rtt := 100, save_data := false }
    1 rfl).2.2.2 rfl (by decide) (by decide)
  have hmed := (h.2.2.2.2.2.1 PrefetchConfig.default
    { connection_type := "wifi", effective_type := "3g", rtt := 100, save_data := false }
    1 rfl).1
  have hlow := (h.2.2.2.2.2.1 PrefetchConfig.default
    { connection_type := "wifi", effective_type := "3g", rtt := 100, save_data := false }
    1 rfl).2.1
  have hzero := h.2.2.2.2.1 PrefetchConfig.default
    (some { connection_type := "wifi", effective_type := "3g", rtt := 100,
            save_data := false }) PrefetchPriority.High
  exact ⟨by rw [hhigh]; rfl, hmed, hlow, hzero⟩

/-- C10: while no network-conditions snapshot has ever been recorded (the
state `PrefetchService::new` starts with), `should_allow_prefetch` skips the
save-data, wifi-only and network-quality checks and returns true for every
priority exactly when prefetch is enabled and a semaphore permit is
available. -/
theorem should_allow_prefetch_no_snapshot
    (config : PrefetchConfig) (permits : Nat) (priority : PrefetchPriority) :
    should_allow_prefetch config initial_network_conditions permits priority =
      (config.enabled && decide (permits > 0)) := by
  rcases Bool.eq_false_or_eq_true config.enabled with h | h <;>
    simp [should_allow_prefetch, initial_network_conditions, h]

/-! ## brew_client.rs / package_service.rs: data model and facade -/

/-- `PackageType` (brew_client.rs). -/
inductive PackageType where
  | Formula
  | Cask
deriving DecidableEq, Repr

/-- The `Display` impl for `PackageType`, used in every cache key. -/
def PackageType.display : PackageType → String
  | PackageType.Formula => "formula"
  | PackageType.Cask => "cask"

/-- `PackageAnalytics` (package_service.rs); the `f64` fields `popularity`
and `rating` carry no control-flow in the modelled operations and are
omitted. -/
structure PackageAnalytics where
  downloads_365d : Nat
deriving DecidableEq, Repr

/-- `BrewPackage` (package_service.rs); `category`, `warnings`,
`install_size` and `last_updated` are payload-only in the modelled
operations and are omitted. -/
structure BrewPackage where
  name : String
  version : String
  description : String
  installed : Bool
  outdated : Bool
  homepage : String
  dependencies : List String
  conflicts : List String
  caveats : String
  analytics : PackageAnalytics
  package_type : PackageType
deriving DecidableEq, Repr

/-- `PackageSearchResult` (package_service.rs). -/
structure PackageSearchResult where
  packages : List BrewPackage
  total_count : Nat
  search_time_ms : Nat
deriving DecidableEq, Repr

/-- `InstallResult` (package_service.rs): the uniform
`{success, message, package_name, duration_ms}` result of every mutating
operation. -/
structure InstallResult where
  success : Bool
  message : String
  package_name : String
  duration_ms : Nat
deriving DecidableEq, Repr

/-- The shapes a `serde_json::Value` stored by the package service can take
(package listings, search results, package details). -/
inductive CacheVal where
  | pkgList (packages : List BrewPackage)
  | searchResult (r : PackageSearchResult)
  | pkg (p : BrewPackage)
deriving DecidableEq, Repr

/-- `serde_json::from_value::<Vec<BrewPackage>>`: succeeds exactly on the
package-list shape. -/
def decode_pkg_list : CacheVal → Option (List BrewPackage)
  | CacheVal.pkgList l => some l
  | _ => none

/-- `PackageService::get_packages`: cache-first read under key
`"packages_<kind>"`; on miss, `with_fallback(fetch_from_api, fetch_from_brew)`
and on success a `set_with_tags` with tags `["packages", "type_<kind>"]` and a
300-second TTL.  The two booleans record whether the remote API fetch and the
local brew fetch were invoked. -/
def get_packages (fetch_api fetch_brew : Except BrewDeckError (List BrewPackage))
    (cfg : CacheConfig) (storage : Storage CacheVal) (package_type : PackageType)
    (now : Nat) :
    Except BrewDeckError (List BrewPackage) × Storage CacheVal × Bool × Bool :=
  let cache_key := "packages_" ++ package_type.display
  match cache_get decode_pkg_list storage cache_key now with
  | (some cached, storage1) => (Except.ok cached, storage1, false, false)
  | (none, storage1) =>
    match with_fallback fetch_api fetch_brew with
    | (Except.error e, _) => (Except.error e, storage1, true, true)
    | (Except.ok packages, fb_invoked) =>
      let cache_tags := ["packages", "type_" ++ package_type.display]
      match cache_set_with_tags cfg storage1 cache_key
          (Except.ok (CacheVal.pkgList packages)) (some 300000) cache_tags now with
      | Except.error e => (Except.error e, storage1, true, fb_invoked)
      | Except.ok storage2 => (Except.ok packages, storage2, true, fb_invoked)

/-- `PackageService::invalidate_package_caches`: drops the package's detail
key, the kind's listing key, and every key matching the `"search_"` pattern. -/
def invalidate_package_caches (storage : Storage CacheVal) (name : String)
    (package_type : PackageType) : Storage CacheVal :=
  let package_key := "package_" ++ package_type.display ++ "_" ++ name
  let storage1 := (cache_invalidate storage package_key).2
  let packages_key := "packages_" ++ package_type.display
  let storage2 := (cache_invalidate storage1 packages_key).2
  (cache_invalidate_pattern storage2 "search_").2

/-- `PackageService::install_package`: `brew_result` is the outcome of the
local tool call.  The Rust function returns `Ok(install_result)` in both
branches; the model returns the payload.  On success the caches are
invalidated; on failure the store is untouched and the error's rendered
message is reported with `success = false`. -/
def install_package (brew_result : Except BrewDeckError String)
    (storage : Storage CacheVal) (name : String) (package_type : PackageType)
    (duration_ms : Nat) : InstallResult × Storage CacheVal :=
  match brew_result with
  | Except.ok message =>
    ({ success := true, message := message, package_name := name,
       duration_ms := duration_ms },
     invalidate_package_caches storage name package_type)
  | Except.error e =>
    ({ success := false, message := e.toMessage, package_name := name,
       duration_ms := duration_ms }, storage)

/-- `PackageService::uninstall_package` (same shape as install, driven by the
uninstall brew call). -/
def uninstall_package (brew_result : Except BrewDeckError String)
    (storage : Storage CacheVal) (name : String) (package_type : PackageType)
    (duration_ms : Nat) : InstallResult × Storage CacheVal :=
  match brew_result with
  | Except.ok message =>
    ({ success := true, message := message, package_name := name,
       duration_ms := duration_ms },
     invalidate_package_caches storage name package_type)
  | Except.error e =>
    ({ success := false, message := e.toMessage, package_name := name,
       duration_ms := duration_ms }, storage)

/-- `PackageService::update_package` (same shape, driven by the upgrade brew
call). -/
def update_package (brew_result : Except BrewDeckError String)
    (storage : Storage CacheVal) (name : String) (package_type : PackageType)
    (duration_ms : Nat) : InstallResult × Storage CacheVal :=
  match brew_result with
  | Except.ok message =>
    ({ success := true, message := message, package_name := name,
       duration_ms := duration_ms },
     invalidate_package_caches storage name package_type)
  | Except.error e =>
    ({ success := false, message := e.toMessage, package_name := name,
       duration_ms := duration_ms }, storage)

/-! ### Lookup lemmas for removal operations -/

theorem lookupEntry_eq_none_iff {J : Type} (storage : Storage J) (key : String) :
    lookupEntry storage key = none ↔ ∀ p ∈ storage, ¬ (p.1 == key) = true := by
  simp [lookupEntry, List.find?_eq_none]

theorem lookupEntry_filter_none {J : Type} (storage : Storage J) (key : String)
    (f : String × CacheEntry J → Bool) (h : lookupEntry storage key = none) :
    lookupEntry (storage.filter f) key = none := by
  rw [lookupEntry_eq_none_iff] at h ⊢
  intro p hp
  exact h p (List.mem_filter.mp hp).1

theorem lookupEntry_removeKey_self {J : Type} (storage : Storage J) (key : String) :
    lookupEntry (removeKey storage key) key = none := by
  rw [lookupEntry_eq_none_iff]
  intro p hp
  have := (List.mem_filter.mp hp).2
  simp at this
  simp [this]

theorem lookupEntry_pattern_removed {J : Type} (storage : Storage J)
    (pattern key : String) (h : key_matches_pattern pattern key = true) :
    lookupEntry (cache_invalidate_pattern storage pattern).2 key = none := by
  rw [lookupEntry_eq_none_iff]
  intro p hp hbeq
  have hkey : p.1 = key := by simpa using hbeq
  have hmem := (List.mem_filter.mp hp).1
  have hkept := (List.mem_filter.mp hp).2
  have hnotin : p.1 ∉ (storage.filter
      (fun q => key_matches_pattern pattern q.1)).map Prod.fst := by
    simpa [cache_invalidate_pattern] using hkept
  exact hnotin (List.mem_map.mpr ⟨p, List.mem_filter.mpr ⟨hmem, by rw [hkey]; exact h⟩, rfl⟩)

theorem lookupEntry_insertEntry_self {J : Type} (storage : Storage J) (key : String)
    (e : CacheEntry J) : lookupEntry (insertEntry storage key e) key = some e := by
  simp [lookupEntry, insertEntry, List.find?]

/-! ## Claim C7 -/

/-- C7: every mutating operation (install, uninstall, update) returns a
`{success, message, duration}` record; when the local tool fails, the
operation reports `success = false` with the rendered error message and
leaves the cache untouched; when it succeeds, it reports `success = true`
with the tool's message and invalidates the detail key
`"package_<kind>_<name>"`, the listing key `"packages_<kind>"`, and every
cached key matching the `"search_"` pattern. -/
theorem mutating_operations_spec :
    (∀ (e : BrewDeckError) (storage : Storage CacheVal) (name : String)
        (kind : PackageType) (d : Nat),
      install_package (Except.error e) storage name kind d =
        ({ success := false, message := e.toMessage, package_name := name,
           duration_ms := d }, storage) ∧
      uninstall_package (Except.error e) storage name kind d =
        ({ success := false, message := e.toMessage, package_name := name,
           duration_ms := d }, storage) ∧
      update_package (Except.error e) storage name kind d =
        ({ success := false, message := e.toMessage, package_name := name,
           duration_ms := d }, storage)) ∧
    (∀ (msg : String) (storage : Storage CacheVal) (name : String)
        (kind : PackageType) (d : Nat),
      install_package (Except.ok msg) storage name kind d =
        ({ success := true, message := msg, package_name := name, duration_ms := d },
         invalidate_package_caches storage name kind) ∧
      uninstall_package (Except.ok msg) storage name kind d =
        ({ success := true, message := msg, package_name := name, duration_ms := d },
         invalidate_package_caches storage name kind) ∧
      update_package (Except.ok msg) storage name kind d =
        ({ success := true, message := msg, package_name := name, duration_ms := d },
         invalidate_package_caches storage name kind)) ∧
    (∀ (storage : Storage CacheVal) (name : String) (kind : PackageType),
      lookupEntry (invalidate_package_caches storage name kind)
        ("package_" ++ kind.display ++ "_" ++ name) = none ∧
      lookupEntry (invalidate_package_caches storage name kind)
        ("packages_" ++ kind.display) = none ∧
      ∀ key, key_matches_pattern "search_" key = true →
        lookupEntry (invalidate_package_caches storage name kind) key = none) := by
  refine ⟨fun _ _ _ _ _ => ⟨rfl, rfl, rfl⟩, fun _ _ _ _ _ => ⟨rfl, rfl, rfl⟩, ?_⟩
  intro storage name kind
  refine ⟨?_, ?_, ?_⟩
  · have h1 : lookupEntry
        (removeKey storage ("package_" ++ kind.display ++ "_" ++ name))
        ("package_" ++ kind.display ++ "_" ++ name) = none :=
      lookupEntry_removeKey_self storage _
    have h2 : lookupEntry
        (removeKey (removeKey storage ("package_" ++ kind.display ++ "_" ++ name))
          ("packages_" ++ kind.display))
        ("package_" ++ kind.display ++ "_" ++ name) = none :=
      lookupEntry_filter_none _ _ _ h1
    exact lookupEntry_filter_none _ _ _ h2
  · have h1 : lookupEntry
        (removeKey (removeKey storage ("package_" ++ kind.display ++ "_" ++ name))
          ("packages_" ++ kind.display))
        ("packages_" ++ kind.display) = none :=
      lookupEntry_removeKey_self _ _
    exact lookupEntry_filter_none _ _ _ h1
  · intro key hkey
    exact lookupEntry_pattern_removed _ _ _ hkey

/-- Witness for C7 at a concrete store: a successful install of the formula
"git" drops its detail key, the formula listing key and the cached search
key, reports success, and a failed uninstall leaves the store unchanged
while reporting the rendered error. -/
theorem mutating_operations_spec_witness :
    (key_matches_pattern "search_" "search_formula_git" = true) ∧
    (lookupEntry
      (install_package (Except.ok "installed")
        [("package_formula_git", CacheEntry.new (CacheVal.pkg
            { name := "git", version := "2.0", description := "", installed := true,
              outdated := false, homepage := "", dependencies := [], conflicts := [],
              caveats := "", analytics := { downloads_365d := 5000 },
              package_type := PackageType.Formula }) 600000 0),
         ("packages_formula", CacheEntry.new (CacheVal.pkgList []) 300000 0),
         ("search_formula_git", CacheEntry.new (CacheVal.searchResult
            { packages := [], total_count := 0, search_time_ms := 3 }) 60000 0)]
        "git" PackageType.Formula 42).2 "search_formula_git" = none) ∧
    (uninstall_package (Except.error (BrewDeckError.CommandExecutionFailed "boom"))
        [] "git" PackageType.Formula 7 =
      ({ success := false, message := "Command execution failed: boom",
         package_name := "git", duration_ms := 7 }, [])) := by
  have h := mutating_operations_spec
  refine ⟨by decide, ?_, ?_⟩
  · have hs := (h.2.2
      [("package_formula_git", CacheEntry.new (CacheVal.pkg
          { name := "git", version := "2.0", description := "", installed := true,
            outdated := false, homepage := "", dependencies := [], conflicts := [],
            caveats := "", analytics := { downloads_365d := 5000 },
            package_type := PackageType.Formula }) 600000 0),
       ("packages_formula", CacheEntry.new (CacheVal.pkgList []) 300000 0),
       ("search_formula_git", CacheEntry.new (CacheVal.searchResult
          { packages := [], total_count := 0, search_time_ms := 3 }) 60000 0)]
      "git" PackageType.Formula).2.2 "search_formula_git" (by decide)
    have hinst := (h.2.1 "installed"
      [("package_formula_git", CacheEntry.new (CacheVal.pkg
          { name := "git", version := "2.0", description := "", installed := true,
            outdated := false, homepage := "", dependencies := [], conflicts := [],
            caveats := "", analytics := { downloads_365d := 5000 },
            package_type := PackageType.Formula }) 600000 0),
       ("packages_formula", CacheEntry.new (CacheVal.pkgList []) 300000 0),
       ("search_formula_git", CacheEntry.new (CacheVal.searchResult
          { packages := [], total_count := 0, search_time_ms := 3 }) 60000 0)]
      "git" PackageType.Formula 42).1
    rw [hinst]
    exact hs
  · exact (h.1 (BrewDeckError.CommandExecutionFailed "boom") [] "git"
      PackageType.Formula 7).2.1

/-! ## Claim C5 -/

/-- A minimal concrete `BrewPackage` for witnesses and counterexamples. -/
def sample_package (name : String) (downloads : Nat) : BrewPackage :=
  { name := name, version := "1.0", description := "", installed := false,
    outdated := false, homepage := "", dependencies := [], conflicts := [],
    caveats := "", analytics := { downloads_365d := downloads },
    package_type := PackageType.Formula }

/-- Counterexample to C5 as stated: after a cache miss and a successful
fetch, the entry stored under `"packages_formula"` carries the tags
`["packages", "type_formula"]`, not the claimed `{"entities", "kind:formula"}`. -/
theorem get_packages_tags_counterexample :
    (lookupEntry (get_packages (Except.ok [sample_package "wget" 0]) (Except.ok [])
        CacheConfig.default [] PackageType.Formula 0).2.1 "packages_formula").map
        CacheEntry.tags = some ["packages", "type_formula"] ∧
    some ["packages", "type_formula"] ≠ some ["entities", "kind:formula"] := by
  constructor
  · rfl
  · decide

/-- C5 (amended): for every kind, after a cache miss on `get_packages` in
which the primary-with-fallback fetch succeeds, the cache holds the fetched
listing under the deterministic key `"packages_<kind>"` with tags
`["packages", "type_<kind>"]` (the source's tag names) and a 300-second TTL,
and a call within the TTL returns the same packages without invoking either
upstream collaborator. -/
theorem get_packages_cache_roundtrip
    (fetch_api fetch_brew : Except BrewDeckError (List BrewPackage))
    (cfg : CacheConfig) (storage : Storage CacheVal) (kind : PackageType)
    (now : Nat) (packages : List BrewPackage)
    (hmiss : (cache_get decode_pkg_list storage ("packages_" ++ kind.display) now).1 = none)
    (hfetch : (with_fallback fetch_api fetch_brew).1 = Except.ok packages) :
    ∃ entry : CacheEntry CacheVal,
      (get_packages fetch_api fetch_brew cfg storage kind now).1 = Except.ok packages ∧
      lookupEntry (get_packages fetch_api fetch_brew cfg storage kind now).2.1
        ("packages_" ++ kind.display) = some entry ∧
      entry.data = CacheVal.pkgList packages ∧
      entry.tags = ["packages", "type_" ++ kind.display] ∧
      entry.ttl = 300000 ∧ entry.created_at = now ∧
      (∀ (fa2 fb2 : Except BrewDeckError (List BrewPackage)) (cfg2 : CacheConfig)
          (now2 : Nat), now2 ≤ now + 300000 →
        get_packages fa2 fb2 cfg2
            (get_packages fetch_api fetch_brew cfg storage kind now).2.1 kind now2 =
          (Except.ok packages,
           updateKey (get_packages fetch_api fetch_brew cfg storage kind now).2.1
             ("packages_" ++ kind.display) (entry.access now2), false, false)) := by
  rcases hcg : cache_get decode_pkg_list storage ("packages_" ++ kind.display) now
    with ⟨r1, S1⟩
  have hr1 : r1 = none := by rw [hcg] at hmiss; exact hmiss
  subst hr1
  rcases hwf : with_fallback fetch_api fetch_brew with ⟨wr, winv⟩
  have hwr : wr = Except.ok packages := by rw [hwf] at hfetch; exact hfetch
  subst hwr
  have hout : get_packages fetch_api fetch_brew cfg storage kind now =
      (Except.ok packages,
       insertEntry (if S1.length ≥ cfg.max_entries then evict_entries cfg S1 now else S1)
         ("packages_" ++ kind.display)
         ((CacheEntry.new (CacheVal.pkgList packages) 300000 now).with_tags
           ["packages", "type_" ++ kind.display]), true, winv) := by
    simp only [get_packages, hcg, hwf, cache_set_with_tags, Option.getD]
  refine ⟨(CacheEntry.new (CacheVal.pkgList packages) 300000 now).with_tags
    ["packages", "type_" ++ kind.display], ?_, ?_, rfl, rfl, rfl, rfl, ?_⟩
  · rw [hout]
  · rw [hout]
    exact lookupEntry_insertEntry_self _ _ _
  · intro fa2 fb2 cfg2 now2 hnow2
    rw [hout]
    have hexp : ((CacheEntry.new (CacheVal.pkgList packages) 300000 now).with_tags
        ["packages", "type_" ++ kind.display]).is_expired now2 = false := by
      simp [CacheEntry.is_expired, CacheEntry.new, CacheEntry.with_tags]
      omega
    have hcg2 : cache_get decode_pkg_list
        (insertEntry (if S1.length ≥ cfg.max_entries then evict_entries cfg S1 now else S1)
          ("packages_" ++ kind.display)
          ((CacheEntry.new (CacheVal.pkgList packages) 300000 now).with_tags
            ["packages", "type_" ++ kind.display]))
        ("packages_" ++ kind.display) now2 =
        (some packages,
         updateKey (insertEntry
             (if S1.length ≥ cfg.max_entries then evict_entries cfg S1 now else S1)
             ("packages_" ++ kind.display)
             ((CacheEntry.new (CacheVal.pkgList packages) 300000 now).with_tags
               ["packages", "type_" ++ kind.display]))
           ("packages_" ++ kind.display)
           (((CacheEntry.new (CacheVal.pkgList packages) 300000 now).with_tags
             ["packages", "type_" ++ kind.display]).access now2)) := by
      unfold cache_get
      rw [lookupEntry_insertEntry_self]
      simp only [hexp, Bool.false_eq_true, if_false]
      rfl
    simp only [get_packages, hcg2]

/-- Witness for C5 at a concrete run: empty cache, remote fetch fails with a
network error, the local tool returns wget and curl; the call succeeds, and a
second call at time 100 (within the 300s TTL) returns the same two packages
without invoking either collaborator. -/
theorem get_packages_cache_roundtrip_witness :
    (cache_get decode_pkg_list ([] : Storage CacheVal) "packages_formula" 0).1 = none ∧
    (with_fallback (Except.error (BrewDeckError.NetworkError "down"))
      (Except.ok [sample_package "wget" 0, sample_package "curl" 0])).1 =
      Except.ok [sample_package "wget" 0, sample_package "curl" 0] ∧
    (get_packages (Except.error (BrewDeckError.NetworkError "down"))
      (Except.ok [sample_package "wget" 0, sample_package "curl" 0])
      CacheConfig.default [] PackageType.Formula 0).1 =
      Except.ok [sample_package "wget" 0, sample_package "curl" 0] ∧
    (get_packages (Except.ok []) (Except.ok [])
      CacheConfig.default
      (get_packages (Except.error (BrewDeckError.NetworkError "down"))
        (Except.ok [sample_package "wget" 0, sample_package "curl" 0])
        CacheConfig.default [] PackageType.Formula 0).2.1
      PackageType.Formula 100).1 =
      Except.ok [sample_package "wget" 0, sample_package "curl" 0] ∧
    (get_packages (Except.ok []) (Except.ok [])
      CacheConfig.default
      (get_packages (Except.error (BrewDeckError.NetworkError "down"))
        (Except.ok [sample_package "wget" 0, sample_package "curl" 0])
        CacheConfig.default [] PackageType.Formula 0).2.1
      PackageType.Formula 100).2.2 = (false, false) := by
  obtain ⟨entry, h1, h2, h3, h4, h5, h6, h7⟩ :=
    get_packages_cache_roundtrip
      (Except.error (BrewDeckError.NetworkError "down"))
      (Except.ok [sample_package "wget" 0, sample_package "curl" 0])
      CacheConfig.default [] PackageType.Formula 0
      [sample_package "wget" 0, sample_package "curl" 0] rfl rfl
  have hsecond := h7 (Except.ok []) (Except.ok []) CacheConfig.default 100 (by omega)
  exact ⟨rfl, rfl, h1, by rw [hsecond], by rw [hsecond]⟩

/-! ## prefetch_service.rs: popular-package warm-up -/

/-- Lexicographic order on character lists, modelling Rust's `String` `Ord`
used by `Vec::<String>::sort`. -/
def chars_le : List Char → List Char → Bool
  | [], _ => true
  | _ :: _, [] => false
  | a :: as, b :: bs => if a < b then true else if b < a then false else chars_le as bs

/-- Rust's `String` order, character-wise. -/
def str_le (a b : String) : Bool := chars_le a.toList b.toList

theorem chars_le_total (as bs : List Char) :
    chars_le as bs = true ∨ chars_le bs as = true := by
  induction as generalizing bs with
  | nil => left; rfl
  | cons a as ih =>
    cases bs with
    | nil => right; rfl
    | cons b bs =>
      by_cases hab : a < b
      · left; simp [chars_le, hab]
      · by_cases hba : b < a
        · right; simp [chars_le, hba]
        · rcases ih bs with h | h
          · left; simp [chars_le, hab, hba, h]
          · right; simp [chars_le, hab, hba, h]

theorem chars_le_trans (as bs cs : List Char) (h1 : chars_le as bs = true)
    (h2 : chars_le bs cs = true) : chars_le as cs = true := by
  induction as generalizing bs cs with
  | nil => rfl
  | cons a as ih =>
    cases bs with
    | nil => simp [chars_le] at h1
    | cons b bs =>
      cases cs with
      | nil => simp [chars_le] at h2
      | cons c cs =>
        simp only [chars_le] at h1 h2 ⊢
        by_cases hab : a < b
        · by_cases hbc : b < c
          · simp [lt_trans hab hbc]
          · by_cases hcb : c < b
            · simp [hbc, hcb] at h2
            · have hbc2 : b = c := le_antisymm (not_lt.mp hcb) (not_lt.mp hbc)
              subst hbc2
              simp [hab]
        · by_cases hba : b < a
          · simp [hab, hba] at h1
          · have hba2 : a = b := le_antisymm (not_lt.mp hba) (not_lt.mp hab)
            subst hba2
            simp only [hab, if_neg hab, lt_irrefl, if_false] at h1 ⊢
            by_cases hac : a < c
            · simp [hac]
            · by_cases hca : c < a
              · simp [hac, hca] at h2
              · simp only [if_neg hac, if_neg hca] at h2 ⊢
                exact ih bs cs h1 h2

instance str_le_total : IsTotal String (fun a b => str_le a b = true) :=
  ⟨fun a b => chars_le_total a.toList b.toList⟩

instance str_le_transitive : IsTrans String (fun a b => str_le a b = true) :=
  ⟨fun a b c => chars_le_trans a.toList b.toList c.toList⟩

/-- `PrefetchService::get_popular_packages` on a cache miss of the popular
list: fetches the listing (here given as `packages`), filters by
`downloads_365d > popularity_threshold`, maps the `(name, downloads)` pairs
down to the names, and sorts — `Vec::<String>::sort()`, i.e. alphabetically
by name, not by install count. -/
def get_popular_packages (cached : Option (List String)) (packages : List BrewPackage)
    (popularity_threshold : Nat) : List String :=
  match cached with
  | some c => c
  | none =>
    let popular :=
      ((packages.filter
          (fun pkg => decide (pkg.analytics.downloads_365d > popularity_threshold))).map
        (fun pkg => (pkg.name, pkg.analytics.downloads_365d))).map Prod.fst
    popular.insertionSort (fun a b => str_le a b = true)

/-- `PrefetchService::prefetch_popular_packages`: `allowed` is the outcome of
`should_allow_prefetch(Medium)`, `last_prefetch` the `last_prefetch_time`
entry for the key `"popular_<kind>"`.  When permitted and not throttled
(elapsed < 600s since the last run), the top 10 of the popular list are
fetched and the last-run timestamp is set to `now`; otherwise nothing is
fetched and the timestamp is unchanged.  The result lists the package names
whose details are fetched. -/
def prefetch_popular_packages (allowed : Bool) (last_prefetch : Option Nat) (now : Nat)
    (cached : Option (List String)) (packages : List BrewPackage)
    (popularity_threshold : Nat) : List String × Option Nat :=
  if !allowed then ([], last_prefetch)
  else if (match last_prefetch with
           | some last_time => decide (now - last_time < 600000)
           | none => false) then ([], last_prefetch)
  else ((get_popular_packages cached packages popularity_threshold).take 10, some now)

/-! ## Claim C8 -/

/-- What the claim asserts (second definition, following the spec's words):
the packages above the threshold, ranked by trailing-year install count
(descending), then reduced to their names. -/
def ranked_by_install_count (packages : List BrewPackage)
    (popularity_threshold : Nat) : List String :=
  ((packages.filter
      (fun pkg => decide (pkg.analytics.downloads_365d > popularity_threshold))).insertionSort
    (fun p q => q.analytics.downloads_365d ≤ p.analytics.downloads_365d)).map
    (fun pkg => pkg.name)

/-- Counterexample to C8 as stated: with packages a (2000 installs) and
b (5000 installs) and threshold 1000, the code produces the alphabetical
list ["a", "b"], while ranking by install count would produce ["b", "a"]. -/
theorem get_popular_packages_rank_counterexample :
    get_popular_packages none [sample_package "a" 2000, sample_package "b" 5000] 1000 =
      ["a", "b"] ∧
    ranked_by_install_count [sample_package "a" 2000, sample_package "b" 5000] 1000 =
      ["b", "a"] ∧
    (["a", "b"] : List String) ≠ ["b", "a"] := by
  refine ⟨by decide, by decide, by decide⟩

/-- C8 (amended): the popular list contains exactly the packages whose
trailing-year install count exceeds the threshold, sorted alphabetically by
name (not by install count); the warm-up fetches details for the top 10 of
that list, and runs at most once every 10 minutes per kind via the last-run
timestamp map (throttled runs fetch nothing and keep the old timestamp). -/
theorem prefetch_popular_packages_spec
    (packages : List BrewPackage) (popularity_threshold : Nat) :
    (∀ name, name ∈ get_popular_packages none packages popularity_threshold ↔
      ∃ pkg, pkg ∈ packages ∧ pkg.name = name ∧
        popularity_threshold < pkg.analytics.downloads_365d) ∧
    List.Sorted (fun a b => str_le a b = true)
      (get_popular_packages none packages popularity_threshold) ∧
    (∀ cached, get_popular_packages (some cached) packages popularity_threshold = cached) ∧
    (∀ last now cached,
      prefetch_popular_packages false last now cached packages popularity_threshold =
        ([], last)) ∧
    (∀ (last now : Nat) cached, now - last < 600000 →
      prefetch_popular_packages true (some last) now cached packages popularity_threshold =
        ([], some last)) ∧
    (∀ (last now : Nat) cached, ¬ (now - last < 600000) →
      prefetch_popular_packages true (some last) now cached packages popularity_threshold =
        ((get_popular_packages cached packages popularity_threshold).take 10, some now)) ∧
    (∀ (now : Nat) cached,
      prefetch_popular_packages true none now cached packages popularity_threshold =
        ((get_popular_packages cached packages popularity_threshold).take 10, some now)) := by
  refine ⟨?_, ?_, fun _ => rfl, fun _ _ _ => rfl, ?_, ?_, fun _ _ => rfl⟩
  · intro name
    have hperm := List.perm_insertionSort (fun a b : String => str_le a b = true)
      (((packages.filter
          (fun pkg => decide (pkg.analytics.downloads_365d > popularity_threshold))).map
        (fun pkg => (pkg.name, pkg.analytics.downloads_365d))).map Prod.fst)
    rw [get_popular_packages, hperm.mem_iff]
    simp only [List.mem_map, List.mem_filter, decide_eq_true_iff]
    constructor
    · rintro ⟨⟨n, d⟩, ⟨pkg, ⟨hmem, hgt⟩, hpair⟩, hfst⟩
      obtain ⟨hn, hd⟩ := Prod.mk.injEq .. ▸ hpair
      exact ⟨pkg, hmem, by simpa using hfst ▸ hn.symm ▸ rfl, hgt⟩
    · rintro ⟨pkg, hmem, hname, hgt⟩
      exact ⟨(pkg.name, pkg.analytics.downloads_365d),
        ⟨pkg, ⟨hmem, hgt⟩, rfl⟩, hname⟩
  · exact List.sorted_insertionSort _ _
  · intro last now cached h
    simp [prefetch_popular_packages, h]
  · intro last now cached h
    simp [prefetch_popular_packages, h]

/-- Witness for C8 at concrete inputs: a run 100ms after the last one is
throttled (fetches nothing, keeps the old timestamp); a run 700s after the
last one proceeds and stamps the new time; and on the two-package example the
fetched top-10 list is the alphabetical ["a", "b"]. -/
theorem prefetch_popular_packages_spec_witness :
    ((100 : Nat) - 0 < 600000) ∧
    prefetch_popular_packages true (some 0) 100 none
      [sample_package "a" 2000, sample_package "b" 5000] 1000 = ([], some 0) ∧
    ¬ ((700000 : Nat) - 0 < 600000) ∧
    prefetch_popular_packages true (some 0) 700000 none
      [sample_package "a" 2000, sample_package "b" 5000] 1000 =
      (["a", "b"], some 700000) := by
  have h := prefetch_popular_packages_spec
    [sample_package "a" 2000, sample_package "b" 5000] 1000
  refine ⟨by decide, h.2.2.2.2.1 0 100 none (by decide), by decide, ?_⟩
  rw [h.2.2.2.2.2.1 0 700000 none (by decide)]
  decide

/-! ## Claim C9 -/

theorem lookupEntry_mem {J : Type} (storage : Storage J) (key : String)
    (e : CacheEntry J) (h : lookupEntry storage key = some e) :
    ∃ k, (k, e) ∈ storage := by
  unfold lookupEntry at h
  rcases hf : storage.find? (fun p => p.1 == key) with _ | p
  · rw [hf] at h
    simp at h
  · rw [hf] at h
    have hmem := List.mem_of_find?_eq_some hf
    simp at h
    have hmem2 : (p.1, p.2) ∈ storage := by rwa [Prod.mk.eta]
    rw [h] at hmem2
    exact ⟨p.1, hmem2⟩

theorem cache_get_cases {V J : Type} (decode : J → Option V) (storage : Storage J)
    (key : String) (now : Nat) (p : String × CacheEntry J)
    (hp : p ∈ (cache_get decode storage key now).2) :
    p ∈ storage ∨ ∃ e, lookupEntry storage key = some e ∧ p = (key, e.access now) := by
  rcases hl : lookupEntry storage key with _ | e
  · have heq : cache_get decode storage key now = (none, storage) := by
      simp [cache_get, hl]
    rw [heq] at hp
    exact Or.inl hp
  · by_cases hexp : e.is_expired now = true
    · have heq : cache_get decode storage key now = (none, removeKey storage key) := by
        simp [cache_get, hl, hexp]
      rw [heq] at hp
      exact Or.inl (List.mem_filter.mp hp).1
    · rw [Bool.not_eq_true] at hexp
      rcases hd : decode (e.access now).data with _ | v
      · have heq : cache_get decode storage key now = (none, removeKey storage key) := by
          simp [cache_get, hl, hexp, hd]
        rw [heq] at hp
        exact Or.inl (List.mem_filter.mp hp).1
      · have heq : cache_get decode storage key now =
            (some v, updateKey storage key (e.access now)) := by
          simp [cache_get, hl, hexp, hd]
        rw [heq] at hp
        simp only [updateKey, List.mem_map] at hp
        obtain ⟨q, hq, hpq⟩ := hp
        by_cases hk : (q.1 == key) = true
        · rw [if_pos hk] at hpq
          refine Or.inr ⟨e, rfl, ?_⟩
          have hq1 : q.1 = key := by simpa using hk
          rw [← hpq, hq1]
        · rw [if_neg hk] at hpq
          exact Or.inl (hpq ▸ hq)

/-- C9: cache-entry invariants. `CacheEntry::new` creates the entry with
`last_accessed = created_at` and `access_count = 0`; `access` (under a
monotone clock, `created_at ≤ now`) preserves `created_at ≤ last_accessed`,
never changes `created_at` or `data`, and increases `access_count` by one;
every entry in the store after a `get` is either an untouched old entry or
the `access`-bumped image of the entry that was read (so under a monotone
clock the invariant is preserved across reads); and every entry in the store
after a successful `set_with_tags` is either an old entry (eviction only
removes entries) or the freshly created one, which satisfies the invariant by
construction.  No operation decreases `access_count` or moves
`last_accessed` before `created_at`. -/
theorem cache_entry_invariants :
    (∀ (J : Type) (v : J) (ttl now : Nat),
      (CacheEntry.new v ttl now).last_accessed = (CacheEntry.new v ttl now).created_at ∧
      (CacheEntry.new v ttl now).access_count = 0) ∧
    (∀ (J : Type) (e : CacheEntry J) (now : Nat), e.created_at ≤ now →
      ((e.access now).created_at ≤ (e.access now).last_accessed ∧
       (e.access now).created_at = e.created_at ∧
       (e.access now).access_count = e.access_count + 1 ∧
       (e.access now).data = e.data)) ∧
    (∀ (V J : Type) (decode : J → Option V) (storage : Storage J) (key : String)
        (now : Nat),
      (∀ p ∈ (cache_get decode storage key now).2,
        p ∈ storage ∨
          ∃ e, lookupEntry storage key = some e ∧ p = (key, e.access now)) ∧
      ((∀ q ∈ storage, q.2.created_at ≤ q.2.last_accessed ∧ q.2.created_at ≤ now) →
        ∀ p ∈ (cache_get decode storage key now).2,
          p.2.created_at ≤ p.2.last_accessed)) ∧
    (∀ (J : Type) (cfg : CacheConfig) (storage storage2 : Storage J) (key : String)
        (v : J) (t : Option Nat) (tags : List String) (now : Nat),
      cache_set_with_tags cfg storage key (Except.ok v) t tags now = Except.ok storage2 →
      ∀ p ∈ storage2, p ∈ storage ∨
        p = (key, (CacheEntry.new v (t.getD cfg.default_ttl) now).with_tags tags)) := by
  refine ⟨fun _ _ _ _ => ⟨rfl, rfl⟩, fun _ _ _ h => ⟨h, rfl, rfl, rfl⟩, ?_, ?_⟩
  · intro V J decode storage key now
    refine ⟨cache_get_cases decode storage key now, ?_⟩
    intro hinv p hp
    rcases cache_get_cases decode storage key now p hp with h | ⟨e, hl, hpe⟩
    · exact (hinv p h).1
    · obtain ⟨k, hk⟩ := lookupEntry_mem storage key e hl
      have he := hinv (k, e) hk
      rw [hpe]
      exact he.2
  · intro J cfg storage storage2 key v t tags now hset p hp
    simp only [cache_set_with_tags] at hset
    have hs2 : storage2 = insertEntry
        (if storage.length ≥ cfg.max_entries then evict_entries cfg storage now
         else storage) key
        ((CacheEntry.new v (t.getD cfg.default_ttl) now).with_tags tags) := by
      injection hset with h
      exact h.symm
    rw [hs2] at hp
    rcases List.mem_cons.mp hp with hp | hp
    · exact Or.inr hp
    · have hbase := (List.mem_filter.mp hp).1
      by_cases hcap : storage.length ≥ cfg.max_entries
      · rw [if_pos hcap] at hbase
        exact Or.inl (List.mem_filter.mp hbase).1
      · rw [if_neg hcap] at hbase
        exact Or.inl hbase

/-- Witness for C9 at a concrete entry and store: creation at time 10 with
TTL 100, an access at time 12, and a read of the one-entry store at time 12
all preserve the invariant. -/
theorem cache_entry_invariants_witness :
    ((CacheEntry.new (J := Nat) 5 100 10).created_at ≤ 12) ∧
    (((CacheEntry.new (J := Nat) 5 100 10).access 12).created_at ≤
        ((CacheEntry.new (J := Nat) 5 100 10).access 12).last_accessed ∧
      ((CacheEntry.new (J := Nat) 5 100 10).access 12).created_at =
        (CacheEntry.new (J := Nat) 5 100 10).created_at ∧
      ((CacheEntry.new (J := Nat) 5 100 10).access 12).access_count =
        (CacheEntry.new (J := Nat) 5 100 10).access_count + 1 ∧
      ((CacheEntry.new (J := Nat) 5 100 10).access 12).data =
        (CacheEntry.new (J := Nat) 5 100 10).data) ∧
    (∀ q ∈ [("k", CacheEntry.new (J := Nat) 5 100 10)],
      q.2.created_at ≤ q.2.last_accessed ∧ q.2.created_at ≤ 12) ∧
    (∀ p ∈ (cache_get some [("k", CacheEntry.new (J := Nat) 5 100 10)] "k" 12).2,
      p.2.created_at ≤ p.2.last_accessed) := by
  refine ⟨by decide, ?_, by decide, ?_⟩
  · exact cache_entry_invariants.2.1 Nat (CacheEntry.new 5 100 10) 12 (by decide)
  · exact (cache_entry_invariants.2.2.1 Nat Nat some
      [("k", CacheEntry.new 5 100 10)] "k" 12).2 (by decide)

/-! ## Claim C4 -/

instance pair_snd_le_total : IsTotal (String × Nat) (fun a b => a.2 ≤ b.2) :=
  ⟨fun a b => Nat.le_total a.2 b.2⟩

instance pair_snd_le_transitive : IsTrans (String × Nat) (fun a b => a.2 ≤ b.2) :=
  ⟨fun _ _ _ hab hbc => le_trans hab hbc⟩

theorem length_filter_not_add {α : Type} (p : α → Bool) (l : List α) :
    (l.filter (fun a => !(p a))).length + (l.filter p).length = l.length := by
  induction l with
  | nil => rfl
  | cons a l ih =>
    cases h : p a <;> simp [List.filter_cons, h] <;> omega

/-- C4: under the LRU strategy with `max_entries = 100` and 100 stored entries
of pairwise-distinct `last_accessed` and pairwise-distinct keys, a `set` of a
serializable value first removes exactly the 10 entries (10% of capacity)
whose `last_accessed` is strictly older than that of every kept entry, then
inserts the new entry, and returns an error only when serialization fails,
never because of capacity. -/
theorem cache_set_lru_eviction {J : Type} (cfg : CacheConfig) (storage : Storage J)
    (key : String) (v : J) (ttl : Option Nat) (now : Nat)
    (hstrat : cfg.strategy = EvictionStrategy.LeastRecentlyUsed)
    (hmax : cfg.max_entries = 100)
    (hlen : storage.length = 100)
    (hkeys : (storage.map Prod.fst).Nodup)
    (htimes : (storage.map (fun p => p.2.last_accessed)).Nodup) :
    cache_set cfg storage key (Except.ok v) ttl now =
      Except.ok (insertEntry
        (storage.filter (fun p => decide (p.1 ∉ get_lru_entries storage 10))) key
        (CacheEntry.new v (ttl.getD cfg.default_ttl) now)) ∧
    (get_lru_entries storage 10).length = 10 ∧
    (get_lru_entries storage 10).Nodup ∧
    (∀ k ∈ get_lru_entries storage 10, ∃ e, (k, e) ∈ storage ∧
      ∀ q ∈ storage, q.1 ∉ get_lru_entries storage 10 →
        e.last_accessed < q.2.last_accessed) ∧
    (storage.filter (fun p => decide (p.1 ∉ get_lru_entries storage 10))).length = 90 ∧
    (∀ msg, cache_set cfg storage key (Except.error msg) ttl now =
      Except.error (BrewDeckError.SerializationError msg)) := by
  set P := storage.map (fun p => (p.1, p.2.last_accessed)) with hPdef
  set sorted := List.insertionSort (fun a b : String × Nat => a.2 ≤ b.2) P with hSdef
  have hperm : sorted.Perm P := List.perm_insertionSort _ P
  have hsorted : List.Sorted (fun a b : String × Nat => a.2 ≤ b.2) sorted :=
    List.sorted_insertionSort _ P
  have hlenP : P.length = 100 := by rw [hPdef, List.length_map, hlen]
  have hlenS : sorted.length = 100 := by rw [hperm.length_eq, hlenP]
  have hEdef : get_lru_entries storage 10 = (sorted.take 10).map Prod.fst := rfl
  have hfst_eq : P.map Prod.fst = storage.map Prod.fst := by
    rw [hPdef, List.map_map]
    rfl
  have hsnd_eq : P.map Prod.snd = storage.map (fun p => p.2.last_accessed) := by
    rw [hPdef, List.map_map]
    rfl
  have hPfst_nodup : (P.map Prod.fst).Nodup := by rw [hfst_eq]; exact hkeys
  have hfst_nodup : (sorted.map Prod.fst).Nodup :=
    (hperm.map Prod.fst).symm.nodup hPfst_nodup
  have hPsnd_nodup : (P.map Prod.snd).Nodup := by rw [hsnd_eq]; exact htimes
  have hsnd_nodup : (sorted.map Prod.snd).Nodup :=
    (hperm.map Prod.snd).symm.nodup hPsnd_nodup
  have hElen : (get_lru_entries storage 10).length = 10 := by
    rw [hEdef, List.length_map, List.length_take, hlenS]
    rfl
  have hEnodup : (get_lru_entries storage 10).Nodup := by
    rw [hEdef, List.map_take]
    exact (List.take_sublist 10 (sorted.map Prod.fst)).nodup hfst_nodup
  have hEmain : ∀ k ∈ get_lru_entries storage 10, ∃ e, (k, e) ∈ storage ∧
      ∀ q ∈ storage, q.1 ∉ get_lru_entries storage 10 →
        e.last_accessed < q.2.last_accessed := by
    intro k hk
    rw [hEdef] at hk
    obtain ⟨x, hxtake, hxk⟩ := List.mem_map.mp hk
    have hxs : x ∈ sorted := List.take_subset 10 sorted hxtake
    have hxP : x ∈ P := hperm.subset hxs
    rw [hPdef] at hxP
    obtain ⟨q0, hq0, hq0x⟩ := List.mem_map.mp hxP
    refine ⟨q0.2, ?_, ?_⟩
    · have hkq : (k, q0.2) = q0 := by
        have h1 : k = q0.1 := by rw [← hxk, ← hq0x]
        rw [h1]
      rw [hkq]
      exact hq0
    · intro q' hq' hq'nE
      have hyP : (q'.1, q'.2.last_accessed) ∈ P := by
        rw [hPdef]
        exact List.mem_map.mpr ⟨q', hq', rfl⟩
      have hys : (q'.1, q'.2.last_accessed) ∈ List.take 10 sorted ++ List.drop 10 sorted := by
        rw [List.take_append_drop]
        exact hperm.symm.subset hyP
      rcases List.mem_append.mp hys with hytake | hydrop
      · exact absurd (by
          rw [hEdef]
          exact List.mem_map.mpr ⟨_, hytake, rfl⟩) hq'nE
      · have hsorted2 : List.Pairwise (fun a b : String × Nat => a.2 ≤ b.2)
            (List.take 10 sorted ++ List.drop 10 sorted) := by
          rw [List.take_append_drop]
          exact hsorted
        have hcross := (List.pairwise_append.mp hsorted2).2.2 x hxtake _ hydrop
        have hne : x.2 ≠ (q'.1, q'.2.last_accessed).2 := by
          have hx2 : x.2 ∈ (sorted.map Prod.snd).take 10 := by
            rw [← List.map_take]
            exact List.mem_map.mpr ⟨x, hxtake, rfl⟩
          have hy2 : (q'.1, q'.2.last_accessed).2 ∈ (sorted.map Prod.snd).drop 10 := by
            rw [← List.map_drop]
            exact List.mem_map.mpr ⟨_, hydrop, rfl⟩
          intro heq2
          exact (List.disjoint_take_drop hsnd_nodup (le_refl 10)) hx2 (heq2 ▸ hy2)
        have hxval : x.2 = q0.2.last_accessed := by rw [← hq0x]
        rw [hxval] at hcross hne
        exact lt_of_le_of_ne hcross hne
  have hEsub : ∀ k ∈ get_lru_entries storage 10, k ∈ storage.map Prod.fst := by
    intro k hk
    obtain ⟨e, hmem, _⟩ := hEmain k hk
    exact List.mem_map.mpr ⟨(k, e), hmem, rfl⟩
  have hcount10 : (storage.filter
      (fun p => decide (p.1 ∈ get_lru_entries storage 10))).length = 10 := by
    rw [← List.countP_eq_length_filter]
    have h1 : List.countP (fun p => decide (p.1 ∈ get_lru_entries storage 10)) storage
        = List.countP (fun k => decide (k ∈ get_lru_entries storage 10))
            (storage.map Prod.fst) := by
      rw [List.countP_map]
      rfl
    rw [h1, List.countP_eq_length_filter]
    have hperm2 : ((storage.map Prod.fst).filter
        (fun k => decide (k ∈ get_lru_entries storage 10))).Perm
          (get_lru_entries storage 10) := by
      rw [List.perm_ext_iff_of_nodup (hkeys.filter _) hEnodup]
      intro a
      simp only [List.mem_filter, decide_eq_true_iff]
      constructor
      · rintro ⟨_, ha⟩
        exact ha
      · intro ha
        exact ⟨hEsub a ha, ha⟩
    rw [hperm2.length_eq, hElen]
  have hkeep90 : (storage.filter
      (fun p => decide (p.1 ∉ get_lru_entries storage 10))).length = 90 := by
    have hnotp : (fun p : String × CacheEntry J =>
        decide (p.1 ∉ get_lru_entries storage 10))
        = fun p => !(decide (p.1 ∈ get_lru_entries storage 10)) := by
      funext p
      simp [decide_not]
    rw [hnotp]
    have hadd := length_filter_not_add
      (fun p : String × CacheEntry J => decide (p.1 ∈ get_lru_entries storage 10)) storage
    omega
  have hcap : storage.length ≥ cfg.max_entries := by rw [hlen, hmax]
  have hset_eq : cache_set cfg storage key (Except.ok v) ttl now =
      Except.ok (insertEntry
        (storage.filter (fun p => decide (p.1 ∉ get_lru_entries storage 10))) key
        (CacheEntry.new v (ttl.getD cfg.default_ttl) now)) := by
    simp only [cache_set, cache_set_with_tags, evict_entries, hstrat, hmax]
    rw [if_pos (show List.length storage ≥ 100 by rw [hlen])]
    rfl
  exact ⟨hset_eq, hElen, hEnodup, hEmain, hkeep90, fun _ => rfl⟩

/-- A concrete 100-entry store with distinct keys and distinct
`last_accessed` timestamps. -/
def lru_witness_storage : Storage Nat :=
  (List.range 100).map (fun i =>
    ("k" ++ toString i,
     { data := 0, created_at := 0, ttl := 1000, access_count := 0,
       last_accessed := i, tags := [] }))

/-- A cache configuration with capacity 100 and the LRU strategy. -/
def lru_witness_config : CacheConfig :=
  { default_ttl := 300000, max_entries := 100, cleanup_interval := 60000,
    strategy := EvictionStrategy.LeastRecentlyUsed,
    persistence_enabled := true, persistence_path := none }

/-- Witness for C4: on the concrete 100-entry store at capacity 100, the LRU
eviction batch has exactly 10 keys, 90 entries survive it, and a failing
serialization is the only error `set` produces. -/
theorem cache_set_lru_eviction_witness :
    lru_witness_config.strategy = EvictionStrategy.LeastRecentlyUsed ∧
    lru_witness_config.max_entries = 100 ∧
    lru_witness_storage.length = 100 ∧
    (lru_witness_storage.map Prod.fst).Nodup ∧
    (lru_witness_storage.map (fun p => p.2.last_accessed)).Nodup ∧
    (get_lru_entries lru_witness_storage 10).length = 10 ∧
    (lru_witness_storage.filter
      (fun p => decide (p.1 ∉ get_lru_entries lru_witness_storage 10))).length = 90 ∧
    cache_set lru_witness_config lru_witness_storage "new" (Except.error "bad") none 5 =
      Except.error (BrewDeckError.SerializationError "bad") := by
  have h := cache_set_lru_eviction lru_witness_config lru_witness_storage "new" 0 none 5
    rfl rfl (by decide) (by decide) (by decide)
  exact ⟨rfl, rfl, by decide, by decide, by decide, h.2.1, h.2.2.2.2.1,
    h.2.2.2.2.2 "bad"⟩
